import Mathlib

/-!
Verification of the wrparsecxx C/C++ front-end library (lexer, dialect
options, parser hooks and literal engine) against its natural-language
specification.  The development shallowly embeds the relevant functions of
src/src/CXXOptions.cxx, src/src/CXXLexer.cxx, src/src/CXXParser.cxx and
src/src/ExprMatch.cxx as executable Lean definitions and proves (or
refutes) the specified properties about them.

Machine-integer conventions: the C++ code runs on an LP64 platform
(sizeof short/int/long/long long = 2/4/8/8, wchar_t = 4 signed,
char16_t = 2, char32_t = 4 unsigned, intmax_t/uintmax_t = 64 bit).
The union payload of a literal is modelled as a 64-bit bit pattern
(a natural number below 2^64); signed reads interpret it in two's
complement, and signed overflow is modelled as wraparound, which is
what the compiled code does on the target platform.
-/

namespace WrParseCxx

set_option maxRecDepth 4000

/-- Token kinds from include/wrparse/cxx/CXXTokenKinds.h (the subset the
claims touch; constructor names keep the source enumerator names). -/
inductive TokenKind where
  | TOK_NULL
  | TOK_EOF
  | TOK_LPAREN
  | TOK_RPAREN
  | TOK_LSQUARE
  | TOK_RSQUARE
  | TOK_LBRACE
  | TOK_RBRACE
  | TOK_LESS
  | TOK_LESSEQUAL
  | TOK_LSHIFT
  | TOK_LSHIFTEQUAL
  | TOK_GREATER
  | TOK_GREATEREQUAL
  | TOK_RSHIFT
  | TOK_RSHIFTEQUAL
  | TOK_EQUAL
  | TOK_IDENTIFIER
  | TOK_DEC_INT_LITERAL
  | TOK_HEX_INT_LITERAL
  | TOK_OCT_INT_LITERAL
  | TOK_BIN_INT_LITERAL
  | TOK_FLOAT_LITERAL
  | TOK_WHITESPACE
  | TOK_COMMENT
  | TOK_KW_VOID
  | TOK_KW_AUTO
  | TOK_KW_DECLTYPE
  | TOK_KW_BOOL
  | TOK_KW_CHAR
  | TOK_KW_CHAR16_T
  | TOK_KW_CHAR32_T
  | TOK_KW_WCHAR_T
  | TOK_KW_INT
  | TOK_KW_FLOAT
  | TOK_KW_DOUBLE
  | TOK_KW_SHORT
  | TOK_KW_LONG
  | TOK_KW_SIGNED
  | TOK_KW_UNSIGNED
  | TOK_KW_CONST
  | TOK_KW_VOLATILE
  | TOK_KW_RESTRICT
  | TOK_KW_ATOMIC
  | TOK_AMP
  | TOK_AMPAMP
  deriving DecidableEq, Repr

open TokenKind

/-! ## Dialect options (include/wrparse/cxx/CXXOptions.h) -/

/-- cxx::C89 -/
def C89 : Nat := 1

/-- cxx::C90 -/
def C90 : Nat := 2

/-- cxx::C95 -/
def C95 : Nat := 3

/-- cxx::C99 -/
def C99 : Nat := 4

/-- cxx::C11 -/
def C11 : Nat := 5

/-- cxx::C_LANG mask -/
def C_LANG : Nat := 0xff

/-- cxx::CXX98 -/
def CXX98 : Nat := 1 <<< 8

/-- cxx::CXX03 -/
def CXX03 : Nat := 2 <<< 8

/-- cxx::CXX11 -/
def CXX11 : Nat := 3 <<< 8

/-- cxx::CXX14 -/
def CXX14 : Nat := 4 <<< 8

/-- cxx::CXX17 -/
def CXX17 : Nat := 5 <<< 8

/-- cxx::CXX_LANG mask -/
def CXX_LANG : Nat := 0xff00

/-- Feature bits (cxx enum in CXXOptions.h). -/
def KEEP_SPACE : Nat := 1

def KEEP_COMMENTS : Nat := 1 <<< 1

def LINE_COMMENTS : Nat := 1 <<< 2

def LONG_LONG : Nat := 1 <<< 3

def DIGRAPHS : Nat := 1 <<< 4

def TRIGRAPHS : Nat := 1 <<< 5

def BINARY_LITERALS : Nat := 1 <<< 6

def UTF8_CHAR_LITERALS : Nat := 1 <<< 7

def HEX_FLOAT_LITERALS : Nat := 1 <<< 8

def UCNS : Nat := 1 <<< 9

def IDENTIFIER_DOLLARS : Nat := 1 <<< 10

def INLINE_FUNCTIONS : Nat := 1 <<< 11

def NO_PP_DIRECTIVES : Nat := 1 <<< 12

/-- cxx::C89_STD_FEATURES -/
def C89_STD_FEATURES : Nat := TRIGRAPHS

def C90_STD_FEATURES : Nat := C89_STD_FEATURES

def C95_STD_FEATURES : Nat := DIGRAPHS ||| TRIGRAPHS

def C99_STD_FEATURES : Nat :=
  C95_STD_FEATURES ||| LINE_COMMENTS ||| UCNS ||| LONG_LONG |||
    HEX_FLOAT_LITERALS ||| INLINE_FUNCTIONS

def C11_STD_FEATURES : Nat := C99_STD_FEATURES

def CXX98_STD_FEATURES : Nat :=
  LINE_COMMENTS ||| DIGRAPHS ||| TRIGRAPHS ||| INLINE_FUNCTIONS

def CXX03_STD_FEATURES : Nat := CXX98_STD_FEATURES

def CXX11_STD_FEATURES : Nat := CXX03_STD_FEATURES ||| LONG_LONG ||| UCNS

def CXX14_STD_FEATURES : Nat := CXX11_STD_FEATURES ||| BINARY_LITERALS

def CXX17_STD_FEATURES : Nat :=
  (CXX14_STD_FEATURES ^^^ TRIGRAPHS) ||| UTF8_CHAR_LITERALS ||| HEX_FLOAT_LITERALS

/-- CXXOptions::c(): the C-standard selector of a languages word. -/
def langC (languages : Nat) : Nat := languages &&& C_LANG

/-- CXXOptions::cxx(): the C++-standard selector of a languages word. -/
def langCxx (languages : Nat) : Nat := languages &&& CXX_LANG

/-- The C_LANG_DATA table of CXXOptions::CXXOptions (standard, default
feature set); the keyword-table builder column is not modelled because the
claims settled here are about the feature set. -/
def C_LANG_DATA : List (Nat × Nat) :=
  [(C89, C89_STD_FEATURES), (C90, C90_STD_FEATURES), (C95, C95_STD_FEATURES),
   (C99, C99_STD_FEATURES), (C11, C11_STD_FEATURES)]

/-- The CXX_LANG_DATA table of CXXOptions::CXXOptions. -/
def CXX_LANG_DATA : List (Nat × Nat) :=
  [(CXX98, CXX98_STD_FEATURES), (CXX03, CXX03_STD_FEATURES),
   (CXX11, CXX11_STD_FEATURES), (CXX14, CXX14_STD_FEATURES),
   (CXX17, CXX17_STD_FEATURES)]

/-- CXXOptions::Internals::initLanguage: OR the selected standard's default
features into the accumulator, or fail when the selector is nonzero but
unknown.  (The source also merges the standard's keyword table, which is
not needed by the claims.) -/
def initLanguage (data : List (Nat × Nat)) (selected : Nat) (features : Nat) :
    Except String Nat :=
  if selected = 0 then Except.ok features
  else
    match data.find? (fun lang => lang.1 = selected) with
    | some lang => Except.ok (features ||| lang.2)
    | none => Except.error "invalid language standard"

/-- CXXOptions::CXXOptions (src/src/CXXOptions.cxx lines 68-116), reduced
to the feature-set computation: validates the language word and the
UTF8_CHAR_LITERALS precondition, then builds features_ starting from 0.
Note that, as in the source, extra_features contributes only its
NO_PP_DIRECTIVES bit to features_ (INLINE_FUNCTIONS only inserts a
keyword, and every other extra feature bit is dropped). -/
def CXXOptions_construct (languages extra_features : Nat) :
    Except String Nat := do
  if langC languages = 0 ∧ langCxx languages = 0 then
    throw "no language selected"
  if (langC languages ≠ 0 ∧ langC languages < C11) ∨
      (langCxx languages ≠ 0 ∧ langCxx languages < CXX11) then
    if langC languages ≥ C11 ∨ langCxx languages ≥ CXX11 then
      pure ()
    else if extra_features &&& UTF8_CHAR_LITERALS ≠ 0 then
      throw "UTF-8 character literals not available before C11/C++11"
  let f1 ← initLanguage C_LANG_DATA (langC languages) 0
  let f2 ← initLanguage CXX_LANG_DATA (langCxx languages) f1
  let f3 := if extra_features &&& NO_PP_DIRECTIVES ≠ 0 then
    f2 ||| NO_PP_DIRECTIVES else f2
  return f3

/-- The NAMES table of CXXOptions::standard (src/src/CXXOptions.cxx lines
152-170): (name, standard, language mask). -/
def STANDARD_NAMES : List (String × Nat × Nat) :=
  [("c89", C89, C_LANG), ("c90", C90, C_LANG), ("c95", C95, C_LANG),
   ("c99", C99, C_LANG), ("c11", C11, C_LANG),
   ("c++98", CXX98, CXX_LANG), ("c++03", CXX03, CXX_LANG),
   ("c++0x", CXX11, CXX_LANG), ("c++11", CXX11, CXX_LANG),
   ("c++1y", CXX14, CXX_LANG), ("c++14", CXX14, CXX_LANG),
   ("c++1z", CXX17, CXX_LANG), ("c++17", CXX17, CXX_LANG)]

/-- The lookup loop of CXXOptions::standard. -/
def lookupStandard : List (String × Nat × Nat) → String → Nat × Nat
  | [], _ => (0, 0)
  | data :: rest, name =>
      if name = data.1 then data.2 else lookupStandard rest name

/-- CXXOptions::standard (src/src/CXXOptions.cxx lines 147-181).  The
source computes a lowercased copy low_name of the argument but the loop
compares the raw name against each table entry, so the lowercased copy is
dead and every name is matched case-sensitively; the embedding reproduces
the comparison that is actually performed. -/
def CXXOptions_standard (name : String) : Nat × Nat :=
  lookupStandard STANDARD_NAMES name

/-! ## Token flags (CXXTokenKinds.h); TF_USER_MIN comes from the wrparse
base library, where the two base flags below occupy the low bits. -/

def TF_STARTS_LINE : Nat := 0x01

def TF_SPACE_BEFORE : Nat := 0x02

def TF_USER_MIN : Nat := 0x04

def TF_ALTERNATE : Nat := TF_USER_MIN

def TF_PREPROCESS : Nat := TF_USER_MIN <<< 1

def TF_SPLITABLE : Nat := TF_USER_MIN <<< 2

/-- A lexed token: kind, spelling, flag bit-set and byte offset (line and
column are not needed by the claims settled here). -/
structure Token where
  kind : TokenKind
  spelling : String
  flags : Nat
  offset : Nat
  deriving DecidableEq, Repr

/-! ## CXXLexer closing-token stack and the readToken branch for the
character > (src/src/CXXLexer.cxx lines 371-400 and 1659-1699). -/

/-- CXXLexer::nextClosingTokenIs: the stack top equals the given kind. -/
def nextClosingTokenIs (closing_tokens : List TokenKind) (k : TokenKind) :
    Bool :=
  !closing_tokens.isEmpty && closing_tokens.head? = some k

/-- CXXLexer::popClosingTokenIf for TOK_GREATER only (no recursive
speculative-pop needed because k = TOK_GREATER skips it). -/
def popClosingTokenIfGreater (closing_tokens : List TokenKind) :
    List TokenKind :=
  match closing_tokens with
  | [] => []
  | top :: rest => if top = TOK_GREATER then rest else top :: rest

/-- Result of the readToken branch for an initial >: the token kind, the
SPLITABLE flag decision, and the closing-token stack after the branch. -/
structure GreaterTokenResult where
  kind : TokenKind
  splitable : Bool
  closing_tokens : List TokenKind
  deriving DecidableEq, Repr

/-- The case U'>' of CXXLexer::readToken (src/src/CXXLexer.cxx lines
371-400): lookahead is the character stream just after the consumed >,
closing_tokens the lexer's closing-token stack and cxx_std the options'
selected C++ standard (CXXOptions::cxx()).  TF_SPLITABLE is added exactly
when nextClosingTokenIs(TOK_GREATER) and cxx_std >= CXX11; a plain > pops
a matching stack top. -/
def readGreaterToken (lookahead : List Char) (closing_tokens : List TokenKind)
    (cxx_std : Nat) : GreaterTokenResult :=
  if lookahead.head? = some '>' then
    -- read the second >, then peek for =
    let kind := if lookahead.tail.head? = some '=' then TOK_RSHIFTEQUAL
      else TOK_RSHIFT
    let split := nextClosingTokenIs closing_tokens TOK_GREATER &&
      decide (cxx_std ≥ CXX11)
    ⟨kind, split, closing_tokens⟩
  else if lookahead.head? = some '=' then
    let split := nextClosingTokenIs closing_tokens TOK_GREATER &&
      decide (cxx_std ≥ CXX11)
    ⟨TOK_GREATEREQUAL, split, closing_tokens⟩
  else ⟨TOK_GREATER, false, popClosingTokenIfGreater closing_tokens⟩

/-! ## CXXParser::processTemplParmArgListEndToken
(src/src/CXXParser.cxx lines 2279-2318). -/

/-- Outcome of the template-parameter/argument-list end-token hook: the
accept/reject decision and the token(s) now occupying the current input
position (the original token possibly rewritten, plus the token inserted
after it by the split). -/
structure TemplEndHookResult where
  ok : Bool
  tokens : List Token
  deriving DecidableEq, Repr

/-- CXXParser::processTemplParmArgListEndToken: before C++11 the hook
accepts unconditionally; a plain > is accepted unchanged; >>, >= and >>=
bearing TF_SPLITABLE are rewritten in place to > and a token of kind
>, = or >= (a copy of the rewritten token with the new kind/spelling and
offset + 1) is inserted after them; a >>, >= or >>= without TF_SPLITABLE,
or any other kind, is rejected. -/
def processTemplParmArgListEndToken (cxx_std : Nat) (token : Token) :
    TemplEndHookResult :=
  if cxx_std < CXX11 then
    ⟨true, [token]⟩
  else
    let split := fun (new_kind : TokenKind) (new_spelling : String) =>
      if token.flags &&& TF_SPLITABLE = 0 then
        TemplEndHookResult.mk false [token]
      else
        -- token->setKind(TOK_GREATER).setSpelling(">"); then a copy of the
        -- rewritten token is inserted after it with the residual kind and
        -- spelling and its offset adjusted by +1
        let head := { token with kind := TOK_GREATER, spelling := ">" }
        let inserted := { head with kind := new_kind, spelling := new_spelling,
                                    offset := head.offset + 1 }
        TemplEndHookResult.mk true [head, inserted]
    match token.kind with
    | TOK_GREATER => ⟨true, [token]⟩
    | TOK_RSHIFT => split TOK_GREATER ">"
    | TOK_GREATEREQUAL => split TOK_EQUAL "="
    | TOK_RSHIFTEQUAL => split TOK_GREATEREQUAL ">="
    | _ => ⟨false, [token]⟩

/-! ## Lexer fragment for whitespace and identifiers
(src/src/CXXLexer.cxx: lex lines 71-95, whitespace lines 938-967,
identifierOrKeyword lines 1445-1489, the default dispatch arm of readToken
lines 775-783). Only the whitespace and identifier arms of readToken are
embedded; the punctuation and literal arms are not exercised by any claim
settled against this fragment, and characters outside the fragment map to
TOK_NULL as in the source's final fall-through. The UCN arm inside
identifierOrKeyword is guarded by the UCNS feature, which is off in every
configuration quantified over here. -/

/-- CXXOptions::have: all wanted feature bits present. -/
def hasFeature (features want : Nat) : Bool := features &&& want = want

/-- wrutil isuspace restricted to ASCII whitespace (space, TAB, LF, VT,
FF, CR). -/
def isuspace (c : Char) : Bool :=
  c = ' ' || c = '\t' || c = '\n' || c = '\x0b' || c = '\x0c' || c = '\r'

/-- The inclusive BMP ranges of valid identifier characters
(initBMPValidIdentChars, src/src/CXXLexer.cxx lines 808-835). -/
def BMP_IDENT_RANGES : List (Nat × Nat) :=
  [(0x24, 0x24), (0x30, 0x39), (0x41, 0x5a), (0x5f, 0x5f), (0x61, 0x7a),
   (0xa8, 0xa8), (0xaa, 0xaa), (0xad, 0xad), (0xaf, 0xaf), (0xb2, 0xb5),
   (0xb7, 0xba), (0xbc, 0xbe), (0xc0, 0xd6), (0xd8, 0xf6), (0xf8, 0xff),
   (0x0100, 0x167f), (0x1681, 0x180d), (0x180f, 0x1fff), (0x200b, 0x200d),
   (0x202a, 0x202e), (0x203f, 0x2040), (0x2054, 0x2054), (0x2060, 0x206f),
   (0x2070, 0x218f), (0x2460, 0x24ff), (0x2776, 0x2793), (0x2c00, 0x2dff),
   (0x2e80, 0x2fff), (0x3004, 0x3007), (0x3021, 0x302f), (0x3031, 0x303f),
   (0x3040, 0xd7ff), (0xf900, 0xfd3d), (0xfd40, 0xfdcf), (0xfdf0, 0xfe44),
   (0xfe47, 0xfffd)]

/-- CXXLexer::isValidIdentChar (dollars is the IDENTIFIER_DOLLARS
feature). -/
def isValidIdentChar (dollars : Bool) (c : Char) : Bool :=
  let n := c.toNat
  if c = '$' && !dollars then false
  else
    (decide (n ≤ 0xffff) &&
       BMP_IDENT_RANGES.any (fun r => decide (r.1 ≤ n) && decide (n ≤ r.2))) ||
    (decide (0x10000 ≤ n) && decide (n ≤ 0xefffd) &&
       decide (n &&& 0xffff ≤ 0xfffd))

/-- CXXLexer::isValidInitialIdentChar. -/
def isValidInitialIdentChar (dollars : Bool) (c : Char) : Bool :=
  isValidIdentChar dollars c &&
    (decide (c.toNat < 0x30) || decide (0x39 < c.toNat)) &&
    (decide (c.toNat < 0x300) || decide (0x36f < c.toNat)) &&
    (decide (c.toNat < 0x1dc0) || decide (0x1dff < c.toNat)) &&
    (decide (c.toNat < 0x20d0) || decide (0x20ff < c.toNat)) &&
    (decide (c.toNat < 0xfe20) || decide (0xfe2f < c.toNat))

/-- The while-loop of CXXLexer::whitespace: consume whitespace up to but
not including the next newline, returning the consumed characters and the
remaining input. -/
def collectSpace : List Char → List Char × List Char
  | [] => ([], [])
  | c :: rest =>
      if isuspace c && c ≠ '\n' then
        let (s, r) := collectSpace rest
        (c :: s, r)
      else ([], c :: rest)

/-- CXXLexer::whitespace: lastRead is the character already consumed by
readToken. A newline is always a standalone token with spelling plain LF;
other whitespace is collected (stopping before any newline), with the
spelling recorded only when KEEP_SPACE is on (otherwise a single space
stands in for it). -/
def whitespace (keep_space : Bool) (lastRead : Char) (input : List Char) :
    (TokenKind × String) × List Char :=
  if lastRead = '\n' then ((TOK_WHITESPACE, "\n"), input)
  else if keep_space then
    let (s, r) := collectSpace input
    ((TOK_WHITESPACE, String.mk (lastRead :: s)), r)
  else
    let (s, r) := collectSpace input
    let _ := s
    ((TOK_WHITESPACE, " "), r)

/-- The identifier-body loop of CXXLexer::identifierOrKeyword. -/
def scanIdent (dollars : Bool) : List Char → List Char × List Char
  | [] => ([], [])
  | c :: rest =>
      if isValidIdentChar dollars c then
        let (s, r) := scanIdent dollars rest
        (c :: s, r)
      else ([], c :: rest)

/-- The keyword-and-identifier table: spelling to kind, seeded from the
dialect keywords and extended with identifiers as they are seen. -/
def KwIdTable := List (String × TokenKind)

/-- CXXLexer::identifierOrKeyword: scan the identifier body, then map the
spelling through the keyword-and-identifier table, entering a fresh
identifier into it. -/
def identifierOrKeyword (dollars : Bool) (tbl : List (String × TokenKind))
    (lastRead : Char) (input : List Char) :
    (TokenKind × String) × List Char × List (String × TokenKind) :=
  let (body, r) := scanIdent dollars input
  let spelling := String.mk (lastRead :: body)
  match tbl.find? (fun e => e.1 = spelling) with
  | some e => ((e.2, e.1), r, tbl)
  | none => ((TOK_IDENTIFIER, spelling), r,
             tbl ++ [(spelling, TOK_IDENTIFIER)])

/-- The dispatch of CXXLexer::readToken restricted to the whitespace and
identifier arms (the source's default arm); other characters fall through
to TOK_NULL exactly as unrecognised characters do in the source. -/
def readToken (features : Nat) (tbl : List (String × TokenKind))
    (input : List Char) :
    (TokenKind × String) × List Char × List (String × TokenKind) :=
  match input with
  | [] => ((TOK_EOF, ""), [], tbl)
  | c :: rest =>
      if isuspace c then
        let (tok, r) := whitespace (hasFeature features KEEP_SPACE) c rest
        (tok, r, tbl)
      else if isValidInitialIdentChar (hasFeature features IDENTIFIER_DOLLARS)
          c then
        identifierOrKeyword (hasFeature features IDENTIFIER_DOLLARS) tbl c rest
      else (((TOK_NULL : TokenKind), ""), rest, tbl)

/-- The do-while loop of CXXLexer::lex: skip whitespace tokens unless
KEEP_SPACE, and comment tokens unless KEEP_COMMENTS. The fuel argument
only bounds the iteration for Lean's termination checker; every iteration
consumes at least one input character, so input.length + 1 is always
sufficient. -/
def lexGo (features : Nat) :
    Nat → List (String × TokenKind) → List Char →
      (TokenKind × String) × List Char × List (String × TokenKind)
  | 0, tbl, input => ((TOK_EOF, ""), input, tbl)
  | fuel + 1, tbl, input =>
      let (tok, rest, tbl2) := readToken features tbl input
      let again := match tok.1 with
        | TOK_WHITESPACE => !hasFeature features KEEP_SPACE
        | TOK_COMMENT => !hasFeature features KEEP_COMMENTS
        | _ => false
      if again then lexGo features fuel tbl2 rest else (tok, rest, tbl2)

/-- CXXLexer::lex on the embedded fragment. -/
def lex (features : Nat) (tbl : List (String × TokenKind))
    (input : List Char) :
    (TokenKind × String) × List Char × List (String × TokenKind) :=
  lexGo features (input.length + 1) tbl input

/-- Repeatedly call lex until TOK_EOF, collecting the (kind, spelling)
pairs handed to the lexer's caller. -/
def lexAllGo (features : Nat) :
    Nat → List (String × TokenKind) → List Char → List (TokenKind × String)
  | 0, _, _ => []
  | fuel + 1, tbl, input =>
      let (tok, rest, tbl2) := lex features tbl input
      if tok.1 = TOK_EOF then []
      else tok :: lexAllGo features fuel tbl2 rest

/-- All tokens lex hands to its caller for the given input, starting from
an empty keyword-and-identifier table. -/
def lexAll (features : Nat) (input : List Char) :
    List (TokenKind × String) :=
  lexAllGo features (input.length + 1) [] input

/-! ## CXXLexer::ucn (src/src/CXXLexer.cxx lines 880-934). The model
works on the logical character stream starting just after the backslash
that the caller consumed; positions are relative to that entry point. -/

/-- wrutil isuxdigit. -/
def isuxdigit (c : Char) : Bool :=
  c.isDigit || ('a' ≤ c && c ≤ 'f') || ('A' ≤ c && c ≤ 'F')

/-- wrutil uxdigitval. -/
def uxdigitval (c : Char) : Nat :=
  if c.isDigit then c.toNat - '0'.toNat
  else if 'a' ≤ c then c.toNat - 'a'.toNat + 10
  else c.toNat - 'A'.toNat + 10

/-- The digit loop of CXXLexer::ucn: read at most n hex digits, stopping
early at the first non-hex-digit; returns how many digits were consumed
and the accumulated code-point value. -/
def ucnLoop : Nat → List Char → Nat → Nat × Nat
  | 0, _, c => (0, c)
  | n + 1, input, c =>
      match input with
      | [] => (0, c)
      | d :: rest =>
          if isuxdigit d then
            let (i, c2) := ucnLoop n rest ((c <<< 4) ||| uxdigitval d)
            (i + 1, c2)
          else (0, c)

def ucnMsgInsufficient : String := "Not a UCN: insufficient digits given"

def ucnMsgSurrogate : String := "Illegal UCN: surrogate code point"

def ucnMsgRange : String := "Not a UCN: code point out of range 0 - 0x1fffff"

/-- Result of the UCN reader: the code point (none models the eof
sentinel), the diagnostics emitted as (message, start offset relative to
entry), and the net number of characters left consumed on return. -/
structure UcnResult where
  val : Option Nat
  diags : List (String × Nat)
  consumed : Nat
  deriving DecidableEq, Repr

/-- CXXLexer::ucn. An initial character other than u/U backtracks and
returns eof with nothing consumed. With too few hex digits a diagnostic is
emitted and backtrack(i + 1) restores the entry position; a surrogate or
out-of-range code point emits a diagnostic and returns eof with the u/U
and its digits still consumed; on success replace(n + 2, c) collapses the
consumed spelling into the single code point. -/
def ucn (input : List Char) : UcnResult :=
  match input with
  | [] => ⟨none, [], 0⟩
  | ch :: rest =>
      let n : Nat := if ch = 'u' then 4 else if ch = 'U' then 8 else 0
      if n = 0 then ⟨none, [], 0⟩
      else
        let i := (ucnLoop n rest 0).1
        let c := (ucnLoop n rest 0).2
        if i < n then ⟨none, [(ucnMsgInsufficient, 0)], 0⟩
        else if 0xd800 ≤ c ∧ c ≤ 0xdfff then
          ⟨none, [(ucnMsgSurrogate, 0)], 1 + i⟩
        else if 0x1fffff < c then ⟨none, [(ucnMsgRange, 0)], 1 + i⟩
        else ⟨some c, [], 1 + i⟩

/-! ## Literal engine (src/src/ExprMatch.cxx and
include/wrparse/cxx/ExprMatch.h, include/wrparse/cxx/CXXParser.h). -/

/-- CXXParser::DeclSpecifier::Sign. -/
inductive Sign where
  | NO_SIGN
  | SIGNED
  | UNSIGNED
  deriving DecidableEq, Repr

/-- CXXParser::DeclSpecifier::Size. -/
inductive Size where
  | NO_SIZE
  | SHORT
  | LONG
  | LONG_LONG
  deriving DecidableEq, Repr

/-- CXXParser::DeclSpecifier::Type (renamed Ty: Type is reserved in
Lean); constructor order matches the source enumerators. -/
inductive Ty where
  | NO_TYPE
  | VOID
  | AUTO
  | DECLTYPE
  | BOOL
  | CHAR
  | CHAR16_T
  | CHAR32_T
  | WCHAR_T
  | INT
  | FLOAT
  | DOUBLE
  | NULLPTR_T
  | OTHER
  deriving DecidableEq, Repr

/-- The enumerator ordinal of a Ty value (the uint8_t value in C++),
needed where the source compares enumerators by order. -/
def Ty.code : Ty → Nat
  | .NO_TYPE => 0
  | .VOID => 1
  | .AUTO => 2
  | .DECLTYPE => 3
  | .BOOL => 4
  | .CHAR => 5
  | .CHAR16_T => 6
  | .CHAR32_T => 7
  | .WCHAR_T => 8
  | .INT => 9
  | .FLOAT => 10
  | .DOUBLE => 11
  | .NULLPTR_T => 12
  | .OTHER => 13

/-- cxx::ExprType (ExprMatch.h lines 41-77). -/
structure ExprType where
  sign : Sign
  size : Size
  type : Ty
  deriving DecidableEq, Repr

/-- A default-constructed ExprType (written as an empty braced list in
the source). -/
def ExprType.null : ExprType := ⟨.NO_SIGN, .NO_SIZE, .NO_TYPE⟩

/-- The three-argument ExprType constructor (src/src/ExprMatch.cxx lines
76-89): a sign or size without a core type normalizes the core type to
INT. -/
def ExprType.make (in_sign : Sign) (in_size : Size) (in_type : Ty) :
    ExprType :=
  if in_type = .NO_TYPE ∧ (in_sign ≠ .NO_SIGN ∨ in_size ≠ .NO_SIZE) then
    ⟨in_sign, in_size, .INT⟩
  else ⟨in_sign, in_size, in_type⟩

/-- ExprType::isSigned (src/src/ExprMatch.cxx lines 105-116). -/
def ExprType.isSigned (t : ExprType) : Bool :=
  match t.type with
  | .CHAR | .INT => t.sign ≠ .UNSIGNED
  | .FLOAT | .DOUBLE => true
  | _ => false

/-- ExprType::isUnsigned (src/src/ExprMatch.cxx lines 120-132). -/
def ExprType.isUnsigned (t : ExprType) : Bool :=
  match t.type with
  | .BOOL | .CHAR16_T | .CHAR32_T | .WCHAR_T => true
  | .CHAR | .INT => t.sign = .UNSIGNED
  | _ => false

/-- ExprType::isNonPtrArithmeticType: BOOL <= type <= DOUBLE in
enumerator order. -/
def ExprType.isNonPtrArithmeticType (t : ExprType) : Bool :=
  decide (Ty.code .BOOL ≤ t.type.code) && decide (t.type.code ≤ Ty.code .DOUBLE)

/-- ExprType::intConvRank (src/src/ExprMatch.cxx lines 144-199) on the
LP64 platform the library targets: char16_t is short-sized, char32_t and
wchar_t are int-sized. -/
def ExprType.intConvRank (t : ExprType) : Int :=
  match t.type with
  | .BOOL => 0
  | .CHAR => 1
  | .CHAR16_T => 2
  | .CHAR32_T => 3
  | .WCHAR_T => 3
  | .INT =>
      match t.size with
      | .SHORT => 2
      | .NO_SIZE => 3
      | .LONG => 4
      | .LONG_LONG => 5
  | _ => -1

/-- Two's-complement reading of a 64-bit pattern as intmax_t. -/
def toInt64 (bits : Nat) : Int :=
  if bits < 2 ^ 63 then (bits : Int) else (bits : Int) - 2 ^ 64

/-- Store an integer as a 64-bit pattern (two's-complement wraparound). -/
def wrap64 (z : Int) : Nat := (z % (2 ^ 64 : Int)).toNat

/-- Truncate low w bits, zero-extended (the unsigned narrowing casts). -/
def zext (w : Nat) (bits : Nat) : Nat := bits % 2 ^ w

/-- Truncate to low w bits and sign-extend back to a 64-bit pattern (the
signed narrowing casts, as compiled on the target). -/
def sextBits (w : Nat) (bits : Nat) : Nat :=
  let m := bits % 2 ^ w
  if m < 2 ^ (w - 1) then m else m + (2 ^ 64 - 2 ^ w)

/-- Truncation toward zero of a rational (static_cast from long double to
an integer type). -/
def truncRat (q : ℚ) : Int := if 0 ≤ q then ⌊q⌋ else -⌊-q⌋

/-- cxx::Literal (ExprMatch.h lines 81-104). The C++ union overlays
i (intmax_t), u (uintmax_t) and d (long double); i and u share the 64-bit
pattern bits, while d is carried as an exact rational (the claims settled
here do not depend on long double rounding). -/
structure Literal where
  type : ExprType
  bits : Nat
  d : ℚ
  deriving DecidableEq, Repr

/-- The union member i: the bit pattern read as intmax_t. -/
def Literal.i (x : Literal) : Int := toInt64 x.bits

/-- The union member u: the bit pattern read as uintmax_t. -/
def Literal.u (x : Literal) : Nat := x.bits

/-- The narrowing/cast section of Literal::convertType (src/src/
ExprMatch.cxx lines 388-497), reached with the current 64-bit pattern,
the signedness decision bits and ranks, for an integer-family target. -/
def convertNarrow (bits : Nat) (from_signed to_signed : Bool)
    (from_rank to_rank : Int) (to_type : ExprType) : Nat :=
  if to_signed = from_signed then
    -- narrowing, same sign
    match to_type.type with
    | .CHAR => if to_signed then sextBits 8 bits else zext 8 bits
    | .CHAR16_T => zext 16 bits
    | .CHAR32_T => zext 32 bits
    | .WCHAR_T => sextBits 32 bits
    | .INT =>
        if to_signed then
          match to_type.size with
          | .SHORT => sextBits 16 bits
          | .NO_SIZE => sextBits 32 bits
          | .LONG => sextBits 64 bits
          | _ => bits
        else
          match to_type.size with
          | .SHORT => zext 16 bits
          | .NO_SIZE => zext 32 bits
          | .LONG => zext 64 bits
          | _ => bits
    | _ => bits
  else if from_signed then
    -- signed to unsigned
    if 0 ≤ toInt64 bits ∧ to_rank ≥ from_rank then bits
    else
      match to_type.type with
      | .CHAR => zext 8 bits
      | .CHAR16_T => zext 16 bits
      | .CHAR32_T => zext 32 bits
      | .WCHAR_T => sextBits 32 bits
      | .INT =>
          match to_type.size with
          | .SHORT => zext 16 bits
          | .NO_SIZE => zext 32 bits
          | .LONG => zext 64 bits
          | .LONG_LONG => zext 64 bits
      | _ => bits
  else
    -- unsigned to signed, same size or narrowing
    match to_type.type with
    | .CHAR => sextBits 8 bits
    | .INT =>
        match to_type.size with
        | .SHORT => sextBits 16 bits
        | .NO_SIZE => sextBits 32 bits
        | .LONG => sextBits 64 bits
        | _ => bits
    | _ => bits

/-- Literal::convertType (src/src/ExprMatch.cxx lines 328-557). The
float-to-float narrowing casts are exact in the rational payload model;
everything else follows the source case by case, including the
fall-through from the integer sources into the DOUBLE case of the DOUBLE
target (a no-op here) and the inability to convert FLOAT to a DOUBLE
target (the source's switch has no FLOAT case there). -/
def Literal.convertType (self : Literal) (to_type : ExprType) : Literal :=
  let from_type := self.type
  if to_type = from_type then self
  else
    match to_type.type with
    | .BOOL =>
        match from_type.type with
        | .CHAR | .CHAR16_T | .CHAR32_T | .WCHAR_T | .INT | .NULLPTR_T =>
            { self with bits := if self.i ≠ 0 then 1 else 0, type := to_type }
        | .FLOAT | .DOUBLE =>
            { self with bits := if self.d ≠ 0 then 1 else 0, type := to_type }
        | _ => { self with type := ExprType.null }
    | .CHAR | .CHAR16_T | .CHAR32_T | .WCHAR_T | .INT =>
        if from_type.type = .BOOL then { self with type := to_type }
        else
          let from_signed := from_type.isSigned
          let to_signed := to_type.isSigned
          let from_rank := from_type.intConvRank
          let to_rank := to_type.intConvRank
          if from_rank ≥ 0 ∧ to_rank ≥ from_rank ∧ to_signed = from_signed
          then
            { self with type := to_type }  -- same sign, same size or widening
          else if from_rank ≥ 0 ∧ to_rank ≥ from_rank ∧ from_signed = false ∧
              to_rank > from_rank then
            { self with type := to_type }  -- widening unsigned-to-signed
          else if ¬(from_rank ≥ 0 ∧ to_rank ≥ from_rank) ∧
              (from_type.type = .FLOAT ∨ from_type.type = .DOUBLE) then
            -- i = static_cast of d; from becomes long long, rank recomputed,
            -- then control reaches the narrowing section
            let bits2 := wrap64 (truncRat self.d)
            { self with
              bits := convertNarrow bits2 from_signed to_signed 5 to_rank
                to_type,
              type := to_type }
          else if ¬(from_rank ≥ 0 ∧ to_rank ≥ from_rank) ∧
              (from_rank < 0 ∨ to_rank < 0) then
            { self with type := ExprType.null }
          else
            { self with
              bits := convertNarrow self.bits from_signed to_signed from_rank
                to_rank to_type,
              type := to_type }
    | .FLOAT =>
        match from_type.type with
        | .CHAR | .CHAR16_T | .CHAR32_T | .WCHAR_T | .INT | .BOOL =>
            { self with
              d := if from_type.isSigned then (self.i : ℚ) else (self.u : ℚ),
              type := to_type }
        | .DOUBLE => { self with type := to_type }
        | _ => { self with type := ExprType.null }
    | .DOUBLE =>
        match from_type.type with
        | .CHAR | .CHAR16_T | .CHAR32_T | .WCHAR_T | .INT | .BOOL =>
            { self with
              d := if from_type.isSigned then (self.i : ℚ) else (self.u : ℚ),
              type := to_type }
        | .DOUBLE => { self with type := to_type }
        | _ => { self with type := ExprType.null }
    | _ => { self with type := ExprType.null }

/-- ExprType::bestCommonType (src/src/ExprMatch.cxx lines 203-248). -/
def ExprType.bestCommonType (a b : Literal) : ExprType :=
  if a.type = b.type then a.type
  else if ¬a.type.isNonPtrArithmeticType ∨ ¬b.type.isNonPtrArithmeticType
  then ExprType.null
  else
    let a_rank := a.type.intConvRank
    let b_rank := b.type.intConvRank
    if a_rank ≥ 0 ∧ b_rank ≥ 0 then
      if a_rank > b_rank then a.type
      else if b_rank > a_rank then b.type
      else if a.type.isUnsigned then
        if 0 ≤ b.i then a.type else b.type
      else
        if 0 ≤ a.i then b.type else a.type
    else ExprType.make .NO_SIGN .LONG .DOUBLE

/-- The conversion-and-comparison part of cxx::areEquivalent
(src/src/ExprMatch.cxx lines 894-916), once the target type has been
fixed: both literals must convert to it and the converted payloads must
be equal in the payload slot the target selects. -/
def equivAt (a b : Literal) (target_type : ExprType) : Bool :=
  let a2 := a.convertType target_type
  if a2.type.type = .NO_TYPE then false
  else
    let b2 := b.convertType target_type
    if b2.type.type = .NO_TYPE then false
    else
      match target_type.type with
      | .BOOL | .CHAR | .CHAR16_T | .CHAR32_T | .WCHAR_T | .INT
      | .NULLPTR_T => decide (a2.i = b2.i)
      | .FLOAT | .DOUBLE => decide (a2.d = b2.d)
      | _ => false

/-- cxx::areEquivalent (src/src/ExprMatch.cxx lines 883-917): an unset or
OTHER target is replaced by the best common type of the two literals. -/
def areEquivalent (a b : Literal) (target_type0 : ExprType) : Bool :=
  let target_type :=
    if target_type0.type = .NO_TYPE ∨ target_type0.type = .OTHER then
      ExprType.bestCommonType a b
    else target_type0
  equivAt a b target_type

/-! ## Literal::readNumericLiteral (src/src/ExprMatch.cxx lines 561-746)
for the four integer literal token kinds. The TOK_FLOAT_LITERAL branch
delegates to the C library std::stold and returns before the suffix scan;
it is not modelled (no claim settled here evaluates a float literal), so
float and non-numeric kinds take the source's early invalid return. -/

/-- C limits on the LP64 target. -/
def INT_MAX : Int := 2 ^ 31 - 1

def INT_MIN : Int := -(2 ^ 31)

def UINT_MAX : Nat := 2 ^ 32 - 1

def LONG_MAX : Int := 2 ^ 63 - 1

def LONG_MIN : Int := -(2 ^ 63)

def ULONG_MAX : Nat := 2 ^ 64 - 1

def LLONG_MAX : Int := 2 ^ 63 - 1

def ULLONG_MAX : Nat := 2 ^ 64 - 1

/-- isxdigit restricted to ASCII as the source guards it. -/
def isxdigitAscii (c : Char) : Bool :=
  c.isDigit || ('a' ≤ c && c ≤ 'f') || ('A' ≤ c && c ≤ 'F')

/-- Accumulation loop for TOK_BIN_INT_LITERAL: returns the 64-bit
pattern, the overflow flag and the characters left for the suffix scan.
The single-quote separator is skipped; the first non-binary-digit stops
the loop. -/
def accumBin : List Char → Nat → Bool → Nat × Bool × List Char
  | [], bits, ovf => (bits, ovf, [])
  | c :: rest, bits, ovf =>
      if c = '\'' then accumBin rest bits ovf
      else if c < '0' ∨ '1' < c then (bits, ovf, c :: rest)
      else accumBin rest (((bits <<< 1) ||| (c.toNat - '0'.toNat)) % 2 ^ 64)
        (ovf || decide (bits &&& (1 <<< 63) ≠ 0))

/-- Accumulation loop for TOK_OCT_INT_LITERAL. -/
def accumOct : List Char → Nat → Bool → Nat × Bool × List Char
  | [], bits, ovf => (bits, ovf, [])
  | c :: rest, bits, ovf =>
      if c = '\'' then accumOct rest bits ovf
      else if c < '0' ∨ '7' < c then (bits, ovf, c :: rest)
      else accumOct rest (((bits <<< 3) ||| (c.toNat - '0'.toNat)) % 2 ^ 64)
        (ovf || decide (bits &&& (7 <<< 61) ≠ 0))

/-- Accumulation loop for TOK_DEC_INT_LITERAL. The overflow test
compares the pattern read as uintmax_t against ULLONG_MAX - 10 before
each step, exactly as the source does. -/
def accumDec : List Char → Nat → Bool → Nat × Bool × List Char
  | [], bits, ovf => (bits, ovf, [])
  | c :: rest, bits, ovf =>
      if c = '\'' then accumDec rest bits ovf
      else if c < '0' ∨ '9' < c then (bits, ovf, c :: rest)
      else accumDec rest ((bits * 10 + (c.toNat - '0'.toNat)) % 2 ^ 64)
        (ovf || decide (bits > ULLONG_MAX - 10))

/-- Accumulation loop for TOK_HEX_INT_LITERAL. -/
def accumHex : List Char → Nat → Bool → Nat × Bool × List Char
  | [], bits, ovf => (bits, ovf, [])
  | c :: rest, bits, ovf =>
      if c = '\'' then accumHex rest bits ovf
      else if 0x80 ≤ c.toNat ∨ ¬isxdigitAscii c then (bits, ovf, c :: rest)
      else
        let v := if c ≤ '9' then c.toNat - '0'.toNat
          else (c.toLower.toNat - 'a'.toNat) + 10
        accumHex rest (((bits <<< 4) ||| v) % 2 ^ 64)
          (ovf || decide (bits &&& (15 <<< 60) ≠ 0))

/-- The suffix loop of readNumericLiteral as it runs for the integer
literal kinds: u/U forces UNSIGNED, l/L upgrades NO_SIZE to LONG and LONG
to LONG_LONG, anything else (including the float-only f/F) stops the
scan. -/
def applySuffix : List Char → Sign × Size → Sign × Size
  | [], ss => ss
  | c :: rest, ss =>
      match c with
      | 'U' | 'u' => applySuffix rest (.UNSIGNED, ss.2)
      | 'L' | 'l' =>
          if ss.2 = .NO_SIZE then applySuffix rest (ss.1, .LONG)
          else if ss.2 = .LONG then applySuffix rest (ss.1, .LONG_LONG)
          else ss
      | _ => ss

/-- The magnitude-based type inference of readNumericLiteral (lines
686-709), applied to the accumulated pattern: starts from the defaults
sign = SIGNED, size = NO_SIZE set earlier. -/
def inferIntType (bits : Nat) (negative overflow : Bool) : Sign × Size :=
  let i := toInt64 bits
  let u := bits
  if overflow then
    (if !negative then Sign.UNSIGNED else Sign.SIGNED, Size.LONG_LONG)
  else if INT_MIN ≤ i ∧ i ≤ INT_MAX then (.SIGNED, .NO_SIZE)
  else if !negative ∧ u ≤ UINT_MAX then (.UNSIGNED, .NO_SIZE)
  else if LONG_MIN ≤ i ∧ i ≤ LONG_MAX then (.SIGNED, .LONG)
  else if !negative ∧ u ≤ ULONG_MAX then (.UNSIGNED, .LONG)
  else
    (if !negative ∧ LLONG_MAX < (u : Int) then Sign.UNSIGNED else Sign.SIGNED,
     Size.LONG_LONG)

/-- Literal::readNumericLiteral on an integer literal token: kind is the
token kind, spelling its characters. -/
def readNumericLiteral (kind : TokenKind) (spelling : List Char) : Literal :=
  if spelling = [] then ⟨ExprType.null, 0, 0⟩
  else
    let negative := spelling.head? = some '-'
    let afterSign := if negative then spelling.tail else spelling
    let isIntKind := kind = TOK_BIN_INT_LITERAL ∨ kind = TOK_HEX_INT_LITERAL ∨
      kind = TOK_OCT_INT_LITERAL ∨ kind = TOK_DEC_INT_LITERAL
    if ¬isIntKind then ⟨ExprType.null, 0, 0⟩
    else
      let body :=
        if kind = TOK_BIN_INT_LITERAL ∨ kind = TOK_HEX_INT_LITERAL then
          afterSign.drop 2
        else afterSign
      if body = [] then ⟨ExprType.null, 0, 0⟩
      else
        -- default type characteristics: plain signed int, i = 0
        let acc :=
          if kind = TOK_BIN_INT_LITERAL then accumBin body 0 false
          else if kind = TOK_OCT_INT_LITERAL then accumOct body 0 false
          else if kind = TOK_DEC_INT_LITERAL then accumDec body 0 false
          else accumHex body 0 false
        let bits0 := acc.1
        let overflow := acc.2.1
        let suffixChars := acc.2.2
        let bits := if negative then wrap64 (-(toInt64 bits0)) else bits0
        let (sg, sz) := inferIntType bits negative overflow
        let (sg2, sz2) := applySuffix suffixChars (sg, sz)
        ⟨⟨sg2, sz2, .INT⟩, bits, 0⟩

/-! ## CXXParser::DeclSpecifier::addDeclSpecifier
(src/src/CXXParser.cxx lines 1720-1924). SPPF nodes are identified by
numeric ids; a DeclSpecInput is one immediate production child of a
specifier sequence, pre-classified the way spec.is classifies it. -/

/-- Qualifier bits (CXXParser.h lines 354-362). -/
def CONST : Nat := 0x1

def VOLATILE : Nat := 0x2

def RESTRICT : Nat := 0x4

def ATOMIC : Nat := 0x8

def LVAL_REF : Nat := 0x40

def RVAL_REF : Nat := 0x80

/-- CXXParser::qualifierForToken (src/src/CXXParser.cxx lines
1653-1674). -/
def qualifierForToken (tok : TokenKind) : Nat :=
  match tok with
  | TOK_KW_CONST => CONST
  | TOK_KW_VOLATILE => VOLATILE
  | TOK_KW_RESTRICT => RESTRICT
  | TOK_KW_ATOMIC => ATOMIC
  | TOK_AMP => LVAL_REF
  | TOK_AMPAMP => RVAL_REF
  | _ => 0

/-- CXXParser::DeclSpecifier (CXXParser.h lines 369-397): the folded
cv-qualifier set, sign/size/type specifiers and the nodes that supplied
them. -/
structure DeclSpecifier where
  type_qual : Nat
  sign_spec : Sign
  size_spec : Size
  type_spec : Ty
  sign_spec_node : Option Nat
  size_spec_node : Option Nat
  type_spec_node : Option Nat
  deriving DecidableEq, Repr

/-- The default-constructed DeclSpecifier. -/
def DeclSpecifier.init : DeclSpecifier :=
  ⟨0, .NO_SIGN, .NO_SIZE, .NO_TYPE, none, none, none⟩

/-- One immediate child of a specifier sequence, as the spec.is tests of
addDeclSpecifier classify it: a type-qualifier, a simple-type-specifier
(its leading token, whether the node is the single token long, whether
an identifier spells nullptr_t, and the node id), or one of the other
type specifiers (class/enum/elaborated/typename/atomic). -/
inductive DeclSpecInput where
  | type_qualifier (tok : TokenKind)
  | simple_type_specifier (tok : TokenKind) (isSingleLongToken : Bool)
      (identIsNullptrT : Bool) (node : Nat)
  | other_type_specifier (node : Nat)
  deriving DecidableEq, Repr

/-- The classification switch of addDeclSpecifier (lines 1736-1766):
exactly one of type/size/sign is produced. -/
def classifySimpleTypeSpec (tok : TokenKind) (isSingleLongToken : Bool)
    (identIsNullptrT : Bool) : Ty × Size × Sign :=
  match tok with
  | TOK_KW_VOID => (.VOID, .NO_SIZE, .NO_SIGN)
  | TOK_KW_AUTO => (.AUTO, .NO_SIZE, .NO_SIGN)
  | TOK_KW_DECLTYPE => (.DECLTYPE, .NO_SIZE, .NO_SIGN)
  | TOK_KW_BOOL => (.BOOL, .NO_SIZE, .NO_SIGN)
  | TOK_KW_CHAR => (.CHAR, .NO_SIZE, .NO_SIGN)
  | TOK_KW_CHAR16_T => (.CHAR16_T, .NO_SIZE, .NO_SIGN)
  | TOK_KW_CHAR32_T => (.CHAR32_T, .NO_SIZE, .NO_SIGN)
  | TOK_KW_WCHAR_T => (.WCHAR_T, .NO_SIZE, .NO_SIGN)
  | TOK_KW_INT => (.INT, .NO_SIZE, .NO_SIGN)
  | TOK_KW_FLOAT => (.FLOAT, .NO_SIZE, .NO_SIGN)
  | TOK_KW_DOUBLE => (.DOUBLE, .NO_SIZE, .NO_SIGN)
  | TOK_KW_SHORT => (.NO_TYPE, .SHORT, .NO_SIGN)
  | TOK_KW_LONG =>
      (.NO_TYPE, if isSingleLongToken then .LONG else .LONG_LONG, .NO_SIGN)
  | TOK_KW_SIGNED => (.NO_TYPE, .NO_SIZE, .SIGNED)
  | TOK_KW_UNSIGNED => (.NO_TYPE, .NO_SIZE, .UNSIGNED)
  | TOK_IDENTIFIER =>
      if identIsNullptrT then (.NULLPTR_T, .NO_SIZE, .NO_SIGN)
      else (.OTHER, .NO_SIZE, .NO_SIGN)
  | _ => (.OTHER, .NO_SIZE, .NO_SIGN)

/-- Diagnostic format strings of addDeclSpecifier. -/
def MSG_REDUNDANT_TYPE : String := "redundant type specifier \"%s\""

def MSG_CONFLICTS_TYPE : String :=
  "\"%s\" conflicts with earlier type specifier \"%s\""

def MSG_MODIFIER_TYPE : String :=
  "\"%s\" modifier cannot be used with type \"%s\""

def MSG_MODIFIER_CHAR : String :=
  "\"%s\" modifier cannot be used with type \"char\""

def MSG_MODIFIER_DOUBLE : String :=
  "\"%s\" modifier cannot be used with type \"double\""

def MSG_CONFLICTS_SIZE : String :=
  "\"%s\" conflicts with earlier \"%s\" modifier"

def MSG_CONFLICTS_SIGN : String :=
  "\"%s\" conflicts with earlier modifier \"%s\""

/-- CXXParser::DeclSpecifier::addDeclSpecifier: returns the continue/stop
decision, the updated fold state and the diagnostics emitted (their
format strings, in emission order). -/
def addDeclSpecifier (ds : DeclSpecifier) (inp : DeclSpecInput) :
    Bool × DeclSpecifier × List String :=
  match inp with
  | .type_qualifier tok =>
      (true, { ds with type_qual := ds.type_qual ||| qualifierForToken tok },
       [])
  | .simple_type_specifier tok sl nt node =>
      let cls := classifySimpleTypeSpec tok sl nt
      let type := cls.1
      let size := cls.2.1
      let sign := cls.2.2
      if type ≠ .NO_TYPE then
        if ds.type_spec ≠ .NO_TYPE then
          if ds.type_spec_node = some node then (true, ds, [])
          else if type = .OTHER then
            -- probably the beginning of a declarator: stop parsing
            (false, ds, [])
          else if ds.type_spec_node = some node then
            -- dead in the source too: the first identity test already failed
            (true, ds, [MSG_REDUNDANT_TYPE])
          else (true, ds, [MSG_CONFLICTS_TYPE])
        else
          match type with
          | .CHAR =>
              if ds.size_spec ≠ .NO_SIZE then (true, ds, [MSG_MODIFIER_CHAR])
              else
                (true, { ds with type_spec := type,
                                 type_spec_node := some node }, [])
          | .INT =>
              (true, { ds with type_spec := type,
                               type_spec_node := some node }, [])
          | .DOUBLE =>
              let d1 := if ds.sign_spec ≠ .NO_SIGN then [MSG_MODIFIER_DOUBLE]
                else []
              let d2 := d1 ++ (if ds.size_spec ≠ .NO_SIZE ∧
                ds.size_spec ≠ .LONG then [MSG_MODIFIER_DOUBLE] else [])
              if ds.sign_spec = .NO_SIGN ∧
                  (ds.size_spec = .NO_SIZE ∨ ds.size_spec = .LONG) then
                (true, { ds with type_spec := type,
                                 type_spec_node := some node }, d2)
              else (true, ds, d2)
          | _ =>
              -- VOID, AUTO, DECLTYPE, BOOL, CHAR16_T, CHAR32_T, WCHAR_T,
              -- FLOAT, NULLPTR_T and OTHER all reject earlier sign and size
              let d1 := if ds.sign_spec ≠ .NO_SIGN then [MSG_MODIFIER_TYPE]
                else []
              let d2 := d1 ++ (if ds.size_spec ≠ .NO_SIZE then
                [MSG_MODIFIER_TYPE] else [])
              if ds.sign_spec = .NO_SIGN ∧ ds.size_spec = .NO_SIZE then
                (true, { ds with type_spec := type,
                                 type_spec_node := some node }, d2)
              else (true, ds, d2)
      else if size ≠ .NO_SIZE then
        if ds.size_spec ≠ .NO_SIZE ∧ size ≠ ds.size_spec then
          (true, ds, [MSG_CONFLICTS_SIZE])
        else if (size = .SHORT ∨ size = .LONG_LONG) ∧
            ds.type_spec ≠ .NO_TYPE ∧ ds.type_spec ≠ .INT then
          (true, ds, [MSG_MODIFIER_TYPE])
        else if size = .LONG ∧ ds.type_spec ≠ .NO_TYPE ∧
            ds.type_spec ≠ .INT ∧ ds.type_spec ≠ .DOUBLE then
          (true, ds, [MSG_MODIFIER_TYPE])
        else
          (true, { ds with size_spec := size, size_spec_node := some node },
           [])
      else if sign ≠ .NO_SIGN then
        let conflict := ds.sign_spec ≠ .NO_SIGN ∧ sign ≠ ds.sign_spec
        let badType := ds.type_spec ≠ .NO_TYPE ∧ ds.type_spec ≠ .INT ∧
          ds.type_spec ≠ .CHAR
        let d1 := if conflict then [MSG_CONFLICTS_SIGN] else []
        let d2 := d1 ++ (if badType then [MSG_MODIFIER_TYPE] else [])
        if ¬conflict ∧ ¬badType then
          (true, { ds with sign_spec := sign, sign_spec_node := some node },
           d2)
        else (true, ds, d2)
      else (true, ds, [])
  | .other_type_specifier node =>
      if ds.type_spec ≠ .NO_TYPE then
        (decide (ds.type_spec_node = some node), ds, [])
      else
        let d1 := if ds.sign_spec ≠ .NO_SIGN then [MSG_MODIFIER_TYPE]
          else if ds.size_spec ≠ .NO_SIZE then [MSG_MODIFIER_TYPE] else []
        if ds.sign_spec = .NO_SIGN ∧ ds.size_spec = .NO_SIZE then
          (true, { ds with type_spec := .OTHER, type_spec_node := some node },
           d1)
        else (true, ds, d1)

/-! # Theorems -/

/-- Claim C1 (code-bug evidence): constructing options with languages =
C89 and extra_features = DIGRAPHS succeeds, but the resulting feature set
is exactly C89's default feature set (TRIGRAPHS only) and does not contain
the DIGRAPHS bit, so the feature set is not the claimed union of the
standard's defaults and extra_features: the constructor drops
extra_features (src/src/CXXOptions.cxx lines 68-116 never OR it into
features_ apart from NO_PP_DIRECTIVES). -/
theorem C1_extra_features_dropped :
    CXXOptions_construct C89 DIGRAPHS = Except.ok C89_STD_FEATURES ∧
      C89_STD_FEATURES &&& DIGRAPHS = 0 := by
  constructor
  · rfl
  · decide

/-- Claim C5 (code-bug evidence): parsing the decimal integer literal
18446744073709551615 (= 2^64 - 1) yields a Literal whose u payload is
0xFFFFFFFFFFFFFFFF but whose inferred type is plain signed int
(sign = SIGNED, size = NO_SIZE): the accumulated bit pattern reads as
i = -1, the overflow flag is never set (the pre-step test u > ULLONG_MAX -
10 does not trigger on this input), and the first magnitude check
INT_MIN <= i <= INT_MAX therefore succeeds, leaving the defaults in place
instead of the claimed unsigned long long. -/
theorem C5_wide_decimal_literal :
    readNumericLiteral TOK_DEC_INT_LITERAL
        ['1', '8', '4', '4', '6', '7', '4', '4', '0', '7', '3', '7', '0',
         '9', '5', '5', '1', '6', '1', '5'] =
      ⟨⟨.SIGNED, .NO_SIZE, .INT⟩, 18446744073709551615, 0⟩ := by
  decide

/-- Claim C9 (counterexample): parse_standard does not accept the C
standard name C99 written in upper case; the lookup compares the raw
name, so "C99" falls off the table and yields (0, 0) instead of the
claimed (C99, C_LANG). -/
theorem C9_counterexample :
    CXXOptions_standard "C99" = (0, 0) ∧
      CXXOptions_standard "C99" ≠ (C99, C_LANG) := by
  decide

/-- Claim C9 (amended): parse_standard maps each of the thirteen exact
(lower-case) names to its standard and language mask, and every other
name, including upper-case variants of the C names such as "C99", yields
(0, 0): the matching is case-sensitive for all names. -/
theorem C9_parse_standard :
    CXXOptions_standard "c89" = (C89, C_LANG) ∧
    CXXOptions_standard "c90" = (C90, C_LANG) ∧
    CXXOptions_standard "c95" = (C95, C_LANG) ∧
    CXXOptions_standard "c99" = (C99, C_LANG) ∧
    CXXOptions_standard "c11" = (C11, C_LANG) ∧
    CXXOptions_standard "c++98" = (CXX98, CXX_LANG) ∧
    CXXOptions_standard "c++03" = (CXX03, CXX_LANG) ∧
    CXXOptions_standard "c++0x" = (CXX11, CXX_LANG) ∧
    CXXOptions_standard "c++11" = (CXX11, CXX_LANG) ∧
    CXXOptions_standard "c++1y" = (CXX14, CXX_LANG) ∧
    CXXOptions_standard "c++14" = (CXX14, CXX_LANG) ∧
    CXXOptions_standard "c++1z" = (CXX17, CXX_LANG) ∧
    CXXOptions_standard "c++17" = (CXX17, CXX_LANG) ∧
    ∀ name : String, name ∉ STANDARD_NAMES.map Prod.fst →
      CXXOptions_standard name = (0, 0) := by
  refine ⟨by decide, by decide, by decide, by decide, by decide, by decide,
    by decide, by decide, by decide, by decide, by decide, by decide,
    by decide, ?_⟩
  intro name h
  simp only [STANDARD_NAMES, List.map, List.mem_cons, List.not_mem_nil,
    or_false, not_or] at h
  obtain ⟨h1, h2, h3, h4, h5, h6, h7, h8, h9, h10, h11, h12, h13⟩ := h
  simp [CXXOptions_standard, STANDARD_NAMES, lookupStandard,
    h1, h2, h3, h4, h5, h6, h7, h8, h9, h10, h11, h12, h13]

/-- Claim C9 amended, evaluated at a concrete out-of-table name: "C99" is
rejected. -/
theorem C9_parse_standard_witness : CXXOptions_standard "C99" = (0, 0) :=
  C9_parse_standard.2.2.2.2.2.2.2.2.2.2.2.2.2 "C99" (by decide)

/-- Claim C10: an ExprType constructed through the three-argument
constructor with no core type but a sign or a size present gets its core
type normalized to INT. -/
theorem C10_bare_sign_or_size_is_int (s : Sign) (z : Size) (t : Ty)
    (ht : t = .NO_TYPE) (hsz : s ≠ .NO_SIGN ∨ z ≠ .NO_SIZE) :
    (ExprType.make s z t).type = .INT := by
  subst ht
  rw [ExprType.make, if_pos ⟨rfl, hsz⟩]

/-- Claim C10, evaluated at a bare unsigned specification. -/
theorem C10_witness :
    (ExprType.make .UNSIGNED .NO_SIZE .NO_TYPE).type = .INT :=
  C10_bare_sign_or_size_is_int .UNSIGNED .NO_SIZE .NO_TYPE rfl
    (Or.inl (by decide))

/-- Claim C4 (counterexample): with all features off (KEEP_SPACE in
particular), lexing the input a LF b hands the caller only the two
identifier tokens; the newline's whitespace token is consumed inside
lex's skip loop and never returned, contradicting the claim that each
newline causes lex() to return a standalone whitespace token to its
caller even when KEEP_SPACE is off. -/
theorem C4_counterexample :
    lexAll 0 ['a', '\n', 'b'] = [(TOK_IDENTIFIER, "a"), (TOK_IDENTIFIER, "b")]
      ∧ (TOK_WHITESPACE, "\n") ∉ lexAll 0 ['a', '\n', 'b'] := by
  decide

/-- Claim C4 (amended): a newline always forms its own whitespace token
with spelling LF (never merged with surrounding whitespace), but that
token reaches lex's caller only when KEEP_SPACE is on; with KEEP_SPACE
off it is skipped like any other whitespace token. -/
theorem C4_newline_token (keep_space : Bool) (input : List Char) :
    whitespace keep_space '\n' input = ((TOK_WHITESPACE, "\n"), input) ∧
    lexAll (if keep_space then KEEP_SPACE else 0) ['a', '\n', 'b'] =
      (if keep_space then
        [(TOK_IDENTIFIER, "a"), (TOK_WHITESPACE, "\n"), (TOK_IDENTIFIER, "b")]
       else [(TOK_IDENTIFIER, "a"), (TOK_IDENTIFIER, "b")]) := by
  constructor
  · rw [whitespace, if_pos rfl]
  · cases keep_space <;> decide

/-- Claim C8 (counterexample): on the surrogate UCN u D800 the reader
emits the diagnostic and returns eof, but the u and its four hex digits
remain consumed (net consumption 5, not 0), contradicting the claim that
all three error cases leave the constituent characters unconsumed. -/
theorem C8_counterexample :
    ucn ['u', 'D', '8', '0', '0'] =
        ⟨none, [(ucnMsgSurrogate, 0)], 5⟩ ∧
      (ucn ['u', 'D', '8', '0', '0']).consumed ≠ 0 := by
  decide

/-- Claim C8 (amended): each of the three UCN error cases emits a
diagnostic at the position captured on entry and yields eof, but only the
fewer-digits case backtracks so that the constituent characters are left
unconsumed; a surrogate code point and a code point above 0x1FFFFF leave
the u/U and its n hex digits consumed. -/
theorem C8_ucn_errors (ch : Char) (rest : List Char) (n : Nat)
    (hn : (ch = 'u' ∧ n = 4) ∨ (ch = 'U' ∧ n = 8)) :
    ((ucnLoop n rest 0).1 < n →
      ucn (ch :: rest) = ⟨none, [(ucnMsgInsufficient, 0)], 0⟩) ∧
    ((ucnLoop n rest 0).1 = n → 0xd800 ≤ (ucnLoop n rest 0).2 →
      (ucnLoop n rest 0).2 ≤ 0xdfff →
      ucn (ch :: rest) = ⟨none, [(ucnMsgSurrogate, 0)], 1 + n⟩) ∧
    ((ucnLoop n rest 0).1 = n → 0x1fffff < (ucnLoop n rest 0).2 →
      ucn (ch :: rest) = ⟨none, [(ucnMsgRange, 0)], 1 + n⟩) := by
  have hch : (if ch = 'u' then 4 else if ch = 'U' then 8 else 0) = n := by
    rcases hn with ⟨h1, h2⟩ | ⟨h1, h2⟩ <;> subst h1 <;> subst h2 <;> decide
  have hn0 : n ≠ 0 := by
    rcases hn with ⟨_, h2⟩ | ⟨_, h2⟩ <;> subst h2 <;> decide
  refine ⟨fun hlt => ?_, fun heq hlo hhi => ?_, fun heq hbig => ?_⟩
  · rw [ucn, hch, if_neg hn0, if_pos hlt]
  · rw [ucn, hch, if_neg hn0, if_neg (by omega), if_pos ⟨hlo, hhi⟩, heq]
  · rw [ucn, hch, if_neg hn0, if_neg (by omega),
      if_neg (by rintro ⟨-, h⟩; omega), if_pos hbig, heq]

/-- Claim C8 amended, evaluated at the surrogate input u D800: the
diagnostic is emitted, eof is returned and five characters stay
consumed. -/
theorem C8_witness :
    ucn ['u', 'D', '8', '0', '0'] = ⟨none, [(ucnMsgSurrogate, 0)], 1 + 4⟩ :=
  (C8_ucn_errors 'u' ['D', '8', '0', '0'] 4 (Or.inl ⟨rfl, rfl⟩)).2.1
    (by decide) (by decide) (by decide)

/-- Claim C2: whenever the readToken branch for > emits a token of kind
>>, >= or >>=, the SPLITABLE flag is set on it if and only if the
selected C++ standard is at least C++11 and the closing-token stack's top
is > at that moment. -/
theorem C2_splitable_iff (lookahead : List Char) (stack : List TokenKind)
    (cxx_std : Nat)
    (h : (readGreaterToken lookahead stack cxx_std).kind = TOK_RSHIFT ∨
      (readGreaterToken lookahead stack cxx_std).kind = TOK_GREATEREQUAL ∨
      (readGreaterToken lookahead stack cxx_std).kind = TOK_RSHIFTEQUAL) :
    (readGreaterToken lookahead stack cxx_std).splitable = true ↔
      CXX11 ≤ cxx_std ∧ stack.head? = some TOK_GREATER := by
  by_cases h1 : lookahead.head? = some '>'
  · rw [readGreaterToken, if_pos h1]
    rcases stack with _ | ⟨top, rest⟩ <;>
      simp [nextClosingTokenIs, ge_iff_le, and_comm]
  · by_cases h2 : lookahead.head? = some '='
    · rw [readGreaterToken, if_neg h1, if_pos h2]
      rcases stack with _ | ⟨top, rest⟩ <;>
        simp [nextClosingTokenIs, ge_iff_le, and_comm]
    · exfalso
      rw [readGreaterToken, if_neg h1, if_neg h2] at h
      simp at h

/-- Claim C2, evaluated at a >> lexed under C++11 with > on top of the
closing-token stack: the SPLITABLE flag is set. -/
theorem C2_witness :
    (readGreaterToken ['>'] [TOK_GREATER] CXX11).splitable = true :=
  (C2_splitable_iff ['>'] [TOK_GREATER] CXX11 (Or.inl (by decide))).mpr
    ⟨le_refl _, rfl⟩

/-- Claim C3: under C++11 or later, the template-list end-token hook
accepts a plain > unchanged; rewrites a SPLITABLE >>, >= or >>= in place
to > and inserts immediately after it a token of kind >, = or >=
respectively whose offset is the original offset plus one; and rejects a
>>, >= or >>= that lacks SPLITABLE. -/
theorem C3_template_end_split (cxx_std : Nat) (tok : Token)
    (h : CXX11 ≤ cxx_std) :
    (tok.kind = TOK_GREATER →
      processTemplParmArgListEndToken cxx_std tok = ⟨true, [tok]⟩) ∧
    (tok.flags &&& TF_SPLITABLE ≠ 0 →
      (tok.kind = TOK_RSHIFT →
        processTemplParmArgListEndToken cxx_std tok =
          ⟨true, [⟨TOK_GREATER, ">", tok.flags, tok.offset⟩,
                  ⟨TOK_GREATER, ">", tok.flags, tok.offset + 1⟩]⟩) ∧
      (tok.kind = TOK_GREATEREQUAL →
        processTemplParmArgListEndToken cxx_std tok =
          ⟨true, [⟨TOK_GREATER, ">", tok.flags, tok.offset⟩,
                  ⟨TOK_EQUAL, "=", tok.flags, tok.offset + 1⟩]⟩) ∧
      (tok.kind = TOK_RSHIFTEQUAL →
        processTemplParmArgListEndToken cxx_std tok =
          ⟨true, [⟨TOK_GREATER, ">", tok.flags, tok.offset⟩,
                  ⟨TOK_GREATEREQUAL, ">=", tok.flags, tok.offset + 1⟩]⟩)) ∧
    (tok.flags &&& TF_SPLITABLE = 0 →
      (tok.kind = TOK_RSHIFT ∨ tok.kind = TOK_GREATEREQUAL ∨
        tok.kind = TOK_RSHIFTEQUAL) →
      processTemplParmArgListEndToken cxx_std tok = ⟨false, [tok]⟩) := by
  have hlt : ¬cxx_std < CXX11 := not_lt.mpr h
  refine ⟨fun hk => ?_, fun hs => ⟨fun hk => ?_, fun hk => ?_, fun hk => ?_⟩,
    fun hs hk => ?_⟩
  · simp [processTemplParmArgListEndToken, hlt, hk]
  · simp [processTemplParmArgListEndToken, hlt, hk, hs]
  · simp [processTemplParmArgListEndToken, hlt, hk, hs]
  · simp [processTemplParmArgListEndToken, hlt, hk, hs]
  · rcases hk with hk | hk | hk <;>
      simp [processTemplParmArgListEndToken, hlt, hk, hs]

/-- Claim C3, evaluated at a SPLITABLE >> under C++11 at offset 7: it is
rewritten to > and a second > with offset 8 is inserted after it. -/
theorem C3_witness :
    processTemplParmArgListEndToken CXX11 ⟨TOK_RSHIFT, ">>", TF_SPLITABLE, 7⟩
      = ⟨true, [⟨TOK_GREATER, ">", TF_SPLITABLE, 7⟩,
                ⟨TOK_GREATER, ">", TF_SPLITABLE, 8⟩]⟩ :=
  ((C3_template_end_split CXX11 ⟨TOK_RSHIFT, ">>", TF_SPLITABLE, 7⟩
      (le_refl _)).2.1 (by decide)).1 rfl

/-- Claim C7: during decl-specifier-seq folding, a simple type specifier
classified as a type, arriving at a fresh node while a different type is
already recorded, makes the fold return false when the new type is OTHER
(invalidating the reduction), and otherwise emits the
conflicts-with-earlier-type-specifier diagnostic and continues with the
whole fold state unchanged. -/
theorem C7_conflicting_type_specifier (ds : DeclSpecifier) (tok : TokenKind)
    (sl nt : Bool) (node : Nat)
    (htype : ds.type_spec ≠ .NO_TYPE)
    (hnode : ds.type_spec_node ≠ some node)
    (hcls : (classifySimpleTypeSpec tok sl nt).1 ≠ .NO_TYPE)
    (_hdiff : (classifySimpleTypeSpec tok sl nt).1 ≠ ds.type_spec) :
    ((classifySimpleTypeSpec tok sl nt).1 = .OTHER →
      addDeclSpecifier ds (.simple_type_specifier tok sl nt node) =
        (false, ds, [])) ∧
    ((classifySimpleTypeSpec tok sl nt).1 ≠ .OTHER →
      addDeclSpecifier ds (.simple_type_specifier tok sl nt node) =
        (true, ds, [MSG_CONFLICTS_TYPE])) := by
  constructor
  · intro hoth
    simp only [addDeclSpecifier]
    rw [if_pos hcls, if_pos htype, if_neg hnode, if_pos hoth]
  · intro hoth
    simp only [addDeclSpecifier]
    rw [if_pos hcls, if_pos htype, if_neg hnode, if_neg hoth, if_neg hnode]

/-- Claim C7, evaluated with int already recorded from node 1 and char
arriving from node 2: the conflict diagnostic is emitted, the fold keeps
going and the recorded type stays int. -/
theorem C7_witness :
    addDeclSpecifier
        { DeclSpecifier.init with type_spec := .INT, type_spec_node := some 1 }
        (.simple_type_specifier TOK_KW_CHAR false false 2) =
      (true,
       { DeclSpecifier.init with type_spec := .INT, type_spec_node := some 1 },
       [MSG_CONFLICTS_TYPE]) :=
  (C7_conflicting_type_specifier
      { DeclSpecifier.init with type_spec := .INT, type_spec_node := some 1 }
      TOK_KW_CHAR false false 2 (by decide) (by decide) (by decide)
      (by decide)).2 (by decide)

/-! ### Helper lemmas for the symmetry of areEquivalent (claim C6) -/

/-- Converting a literal to its own type is the identity (the early
equality return of convertType). -/
lemma convertType_self (x : Literal) : x.convertType x.type = x := by
  unfold Literal.convertType
  simp

/-- Only BOOL, CHAR, CHAR16_T, CHAR32_T, WCHAR_T and INT have a
nonnegative integer conversion rank. -/
lemma rank_nonneg_types (t : ExprType) (h : 0 ≤ t.intConvRank) :
    t.type = .BOOL ∨ t.type = .CHAR ∨ t.type = .CHAR16_T ∨
      t.type = .CHAR32_T ∨ t.type = .WCHAR_T ∨ t.type = .INT := by
  obtain ⟨s, z, ty⟩ := t
  cases ty <;> simp_all [ExprType.intConvRank]

/-- A rank-zero type is BOOL. -/
lemma rank_zero_bool (t : ExprType) (h : t.intConvRank = 0) :
    t.type = .BOOL := by
  obtain ⟨s, z, ty⟩ := t
  cases ty <;> first
    | rfl
    | (exfalso; cases z <;> simp_all [ExprType.intConvRank])

/-- BOOL has rank zero. -/
lemma bool_rank_zero (t : ExprType) (h : t.type = .BOOL) :
    t.intConvRank = 0 := by
  simp [ExprType.intConvRank, h]

/-- The integer-family types other than BOOL have rank at least one. -/
lemma family_rank_pos (t : ExprType)
    (h : t.type = .CHAR ∨ t.type = .CHAR16_T ∨ t.type = .CHAR32_T ∨
      t.type = .WCHAR_T ∨ t.type = .INT) : 1 ≤ t.intConvRank := by
  obtain ⟨s, z, ty⟩ := t
  rcases h with h | h | h | h | h <;> subst h <;> cases z <;>
    simp [ExprType.intConvRank]

/-- For types of nonnegative rank, isSigned is the negation of
isUnsigned. -/
lemma isSigned_eq_not_isUnsigned (t : ExprType) (h : 0 ≤ t.intConvRank) :
    t.isSigned = !t.isUnsigned := by
  obtain ⟨s, z, ty⟩ := t
  cases ty <;> cases s <;>
    simp_all [ExprType.intConvRank, ExprType.isSigned, ExprType.isUnsigned]

/-- Converting between two distinct BOOL-typed ExprTypes fails: the BOOL
target's switch has no BOOL source case. -/
lemma convertType_bool_fail (x : Literal) (t : ExprType) (hne : t ≠ x.type)
    (ht : t.type = .BOOL) (hx : x.type.type = .BOOL) :
    (x.convertType t).type.type = .NO_TYPE := by
  obtain ⟨⟨xs, xz, xty⟩, xbits, xd⟩ := x
  obtain ⟨ts, tz, tty⟩ := t
  simp only at ht hx
  subst ht
  subst hx
  unfold Literal.convertType
  rw [if_neg hne]
  simp [ExprType.null]

/-- Converting a literal of integer rank to an integer-family target of
the same rank and signedness changes the type but leaves the payload
untouched: either the types are equal (early return), or the
same-sign-same-or-widening break applies. -/
lemma convertType_eqrank (x : Literal) (t : ExprType)
    (ht : t.type = .CHAR ∨ t.type = .CHAR16_T ∨ t.type = .CHAR32_T ∨
      t.type = .WCHAR_T ∨ t.type = .INT)
    (hr : t.intConvRank = x.type.intConvRank)
    (hs : t.isSigned = x.type.isSigned)
    (hr0 : 0 ≤ x.type.intConvRank) :
    x.convertType t = { x with type := t } := by
  by_cases heq : t = x.type
  · rw [heq]
    exact convertType_self x
  · obtain ⟨⟨xsgn, xsz, xty⟩, xbits, xd⟩ := x
    obtain ⟨tsgn, tsz, tty⟩ := t
    have hc1 : ExprType.intConvRank ⟨xsgn, xsz, xty⟩ ≥ 0 ∧
        ExprType.intConvRank ⟨tsgn, tsz, tty⟩ ≥
          ExprType.intConvRank ⟨xsgn, xsz, xty⟩ ∧
        ExprType.isSigned ⟨tsgn, tsz, tty⟩ =
          ExprType.isSigned ⟨xsgn, xsz, xty⟩ := ⟨hr0, ge_of_eq hr, hs⟩
    rcases ht with h | h | h | h | h <;> simp only at h <;> subst h <;>
      (unfold Literal.convertType
       rw [if_neg heq]
       by_cases hbool : xty = Ty.BOOL
       · simp [hbool]
       · simp [hbool, hc1])

/-- With the target fixed, the conversion-and-comparison step is
symmetric in the two literals. -/
lemma equivAt_comm (a b : Literal) (t : ExprType) :
    equivAt a b t = equivAt b a t := by
  unfold equivAt
  by_cases ha : (a.convertType t).type.type = Ty.NO_TYPE <;>
    by_cases hb : (b.convertType t).type.type = Ty.NO_TYPE <;>
      simp [ha, hb]
  cases t.type <;> first
    | rfl
    | exact decide_eq_decide.mpr eq_comm

/-- At an equal-rank, equal-signedness tie between two distinct types,
the conversion-and-comparison step gives the same answer whichever of the
two types is chosen as the target. -/
lemma equivAt_tie (a b : Literal)
    (hab : a.type ≠ b.type)
    (hr : a.type.intConvRank = b.type.intConvRank)
    (hr0 : 0 ≤ a.type.intConvRank)
    (hsu : a.type.isUnsigned = b.type.isUnsigned) :
    equivAt a b a.type = equivAt a b b.type := by
  have hr0b : 0 ≤ b.type.intConvRank := hr ▸ hr0
  rcases rank_nonneg_types a.type hr0 with haB | haF
  · -- a is BOOL, hence so is b, and conversion fails in both directions
    have hbB : b.type.type = .BOOL := by
      apply rank_zero_bool
      rw [← hr, bool_rank_zero _ haB]
    have e1 : equivAt a b a.type = false := by
      unfold equivAt
      rw [convertType_self a]
      rw [if_neg (by simp [haB])]
      rw [if_pos (convertType_bool_fail b a.type hab haB hbB)]
    have e2 : equivAt a b b.type = false := by
      unfold equivAt
      rw [if_pos (convertType_bool_fail a b.type (Ne.symm hab) hbB haB)]
    rw [e1, e2]
  · -- a is in the non-BOOL integer family, hence so is b
    have ha1 : 1 ≤ a.type.intConvRank := family_rank_pos a.type haF
    rcases rank_nonneg_types b.type hr0b with hbB | hbF
    · exfalso
      have := bool_rank_zero b.type hbB
      omega
    · have hsig : b.type.isSigned = a.type.isSigned := by
        rw [isSigned_eq_not_isUnsigned _ hr0, isSigned_eq_not_isUnsigned _
          hr0b, hsu]
      have c2 : b.convertType a.type = { b with type := a.type } :=
        convertType_eqrank b a.type haF hr hsig.symm hr0b
      have c3 : a.convertType b.type = { a with type := b.type } :=
        convertType_eqrank a b.type hbF hr.symm hsig hr0
      unfold equivAt
      rw [convertType_self a, c2, c3, convertType_self b]
      rcases haF with h | h | h | h | h <;>
        rcases hbF with g | g | g | g | g <;>
          simp [h, g, Literal.i]

/-- bestCommonType either commutes outright, or the two orders land on
the two sides of an equal-rank equal-signedness tie between the operand
types. -/
lemma bct_cases (a b : Literal) :
    ExprType.bestCommonType b a = ExprType.bestCommonType a b ∨
    (a.type ≠ b.type ∧ a.type.intConvRank = b.type.intConvRank ∧
     0 ≤ a.type.intConvRank ∧ a.type.isUnsigned = b.type.isUnsigned ∧
     (ExprType.bestCommonType a b = a.type ∨
       ExprType.bestCommonType a b = b.type) ∧
     (ExprType.bestCommonType b a = a.type ∨
       ExprType.bestCommonType b a = b.type)) := by
  by_cases h1 : a.type = b.type
  · left
    simp [ExprType.bestCommonType, h1]
  · have h1s : ¬b.type = a.type := fun hh => h1 hh.symm
    by_cases h2a : a.type.isNonPtrArithmeticType = true
    case neg =>
      left
      simp [ExprType.bestCommonType, h1, h1s, h2a]
    by_cases h2b : b.type.isNonPtrArithmeticType = true
    case neg =>
      left
      simp [ExprType.bestCommonType, h1, h1s, h2a, h2b]
    by_cases h3a : 0 ≤ a.type.intConvRank
    case neg =>
      left
      simp [ExprType.bestCommonType, h1, h1s, h2a, h2b, h3a]
    by_cases h3b : 0 ≤ b.type.intConvRank
    case neg =>
      left
      simp [ExprType.bestCommonType, h1, h1s, h2a, h2b, h3b]
    rcases lt_trichotomy a.type.intConvRank b.type.intConvRank with
      hlt | heq | hgt
    · left
      have hng : ¬a.type.intConvRank > b.type.intConvRank := by omega
      simp [ExprType.bestCommonType, h1, h1s, h2a, h2b, h3a, h3b, hng, hlt]
    · have hng1 : ¬a.type.intConvRank > b.type.intConvRank := by omega
      have hng2 : ¬b.type.intConvRank > a.type.intConvRank := by omega
      by_cases hua : a.type.isUnsigned = true <;>
        by_cases hub : b.type.isUnsigned = true
      · -- both unsigned: an order-dependent tie
        right
        refine ⟨h1, heq, h3a, by rw [hua, hub], ?_, ?_⟩
        · by_cases hbi : 0 ≤ b.i
          · left
            simp [ExprType.bestCommonType, h1, h2a, h2b, h3a, h3b, hng1,
              hng2, hua, hbi]
          · right
            simp [ExprType.bestCommonType, h1, h2a, h2b, h3a, h3b, hng1,
              hng2, hua, hbi]
        · by_cases hai : 0 ≤ a.i
          · right
            simp [ExprType.bestCommonType, h1s, h2a, h2b, h3a, h3b, hng1,
              hng2, hub, hai]
          · left
            simp [ExprType.bestCommonType, h1s, h2a, h2b, h3a, h3b, hng1,
              hng2, hub, hai]
      · -- a unsigned, b signed: both orders agree
        left
        simp [ExprType.bestCommonType, h1, h1s, h2a, h2b, h3a, h3b, hng1,
          hng2, hua, hub]
      · -- a signed, b unsigned: both orders agree
        left
        simp [ExprType.bestCommonType, h1, h1s, h2a, h2b, h3a, h3b, hng1,
          hng2, hua, hub]
      · -- both signed: an order-dependent tie
        right
        have hsu : a.type.isUnsigned = b.type.isUnsigned := by
          rw [Bool.not_eq_true] at hua hub
          rw [hua, hub]
        refine ⟨h1, heq, h3a, hsu, ?_, ?_⟩
        · by_cases hai : 0 ≤ a.i
          · right
            simp [ExprType.bestCommonType, h1, h2a, h2b, h3a, h3b, hng1,
              hng2, hua, hai]
          · left
            simp [ExprType.bestCommonType, h1, h2a, h2b, h3a, h3b, hng1,
              hng2, hua, hai]
        · by_cases hbi : 0 ≤ b.i
          · left
            simp [ExprType.bestCommonType, h1s, h2a, h2b, h3a, h3b, hng1,
              hng2, hub, hbi]
          · right
            simp [ExprType.bestCommonType, h1s, h2a, h2b, h3a, h3b, hng1,
              hng2, hub, hbi]
    · left
      have hng : ¬b.type.intConvRank > a.type.intConvRank := by omega
      simp [ExprType.bestCommonType, h1, h1s, h2a, h2b, h3a, h3b, hng, hgt]

/-- Claim C6: areEquivalent is symmetric in its two literals for every
target type, including an unset or OTHER target, where the best common
type of the two literals is computed instead: even when the equal-rank
tie-break of bestCommonType picks different types for the two argument
orders, converting between equal-rank, equally-signed types leaves the
payloads unchanged, so the comparison result is the same. -/
theorem C6_areEquivalent_comm (a b : Literal) (T : ExprType) :
    areEquivalent a b T = areEquivalent b a T := by
  simp only [areEquivalent]
  by_cases hT : T.type = Ty.NO_TYPE ∨ T.type = Ty.OTHER
  · rw [if_pos hT, if_pos hT,
      show equivAt b a (ExprType.bestCommonType b a) =
        equivAt a b (ExprType.bestCommonType b a) from
          (equivAt_comm a b (ExprType.bestCommonType b a)).symm]
    rcases bct_cases a b with heq | ⟨hab, hr, hr0, hsu, hA, hB⟩
    · rw [heq]
    · have key := equivAt_tie a b hab hr hr0 hsu
      rcases hA with hA | hA <;> rcases hB with hB | hB <;> rw [hA, hB]
      · exact key
      · exact key.symm
  · rw [if_neg hT, if_neg hT]
    exact equivAt_comm a b T

end WrParseCxx
